import Mathlib

/-
  Verification development for the celsius-js-sdk core (src/lib/core.js).

  The repository ships only `src/lib/core.js` (the `Celsius` constructor and
  the nine facade operations) together with documentation.  The modules it
  requires — `./config` (the per-environment defaults table), `./consts`
  (auth-method constants, error strings, path templates) and `./http-client`
  (the request builder / signed-response pipeline) — are not part of the
  sources; where a claim depends on them they are modelled from the
  specification, and each such definition says so in its doc comment.

  JavaScript values are embedded shallowly: an object field that may be
  absent becomes an `Option`, JS falsiness of a string field (`!s` true for
  `undefined` and for the empty string) is made explicit, and
  `Object.assign({}, defaults, config)` becomes a field-wise merge in which
  the caller-supplied field wins whenever it is present.
-/

namespace CelsiusSDK

/-- Modelled from the spec: `AUTH_METHODS.API_KEY` from `./consts`, which is
not under src/.  The concrete string is irrelevant to every claim; only that
the two recognized auth methods are two distinct constants matters. -/
def API_KEY : String := "api-key"

/-- Modelled from the spec: `AUTH_METHODS.USER_TOKEN` from `./consts`, which
is not under src/. -/
def USER_TOKEN : String := "user-token"

/-- Modelled from the spec: `ENVIRONMENT.PRODUCTION` from `./consts` (the
spec's environment enum is production / staging / development). -/
def PRODUCTION : String := "production"

/-- Modelled from the spec: `ENVIRONMENT.STAGING` from `./consts`. -/
def STAGING : String := "staging"

/-- Modelled from the spec: `ENVIRONMENT.DEVELOPMENT` from `./consts`. -/
def DEVELOPMENT : String := "development"

/-- One row of the per-environment defaults table: the spec's Configuration
fields that are hardcoded per environment (base URL and trust-anchor public
key). -/
structure EnvDefaults where
  baseUrl : String
  publicKey : String
deriving Repr, DecidableEq

/-- Modelled from the spec: the production row of the defaults table in
`./config`, which is not under src/.  Concrete strings are placeholders;
claims depend only on which row is selected. -/
def productionDefaults : EnvDefaults :=
  { baseUrl := "production-base-url", publicKey := "production-public-key" }

/-- Modelled from the spec: the staging row of the defaults table. -/
def stagingDefaults : EnvDefaults :=
  { baseUrl := "staging-base-url", publicKey := "staging-public-key" }

/-- Modelled from the spec: the development row of the defaults table. -/
def developmentDefaults : EnvDefaults :=
  { baseUrl := "development-base-url", publicKey := "development-public-key" }

/-- Modelled from the spec: the `CONFIG` lookup table from `./config`, which
is not under src/.  `CONFIG[env]` in JS yields `undefined` for an
unrecognized key, embedded here as `none`. -/
def CONFIG : String → Option EnvDefaults := fun e =>
  if e = PRODUCTION then some productionDefaults
  else if e = STAGING then some stagingDefaults
  else if e = DEVELOPMENT then some developmentDefaults
  else none

/-- The caller-supplied config object passed to `Celsius(config)`
(src/lib/core.js line 69).  Every field is optional: `none` embeds a JS
property that is absent / `undefined`. -/
structure UserConfig where
  environment : Option String := none
  authMethod : Option String := none
  partnerKey : Option String := none
  baseUrl : Option String := none
  publicKey : Option String := none
deriving Repr, DecidableEq

/-- The merged configuration produced at src/lib/core.js line 74 by
`Object.assign({}, defaultConfig, config)`: `baseUrl` and `publicKey` always
end up defined (the defaults table supplies them), while `environment`,
`authMethod` and `partnerKey` come only from the caller. -/
structure MergedConfig where
  environment : Option String
  authMethod : Option String
  partnerKey : Option String
  baseUrl : String
  publicKey : String
deriving Repr, DecidableEq

/-- src/lib/core.js lines 70-73: `let defaultConfig = CONFIG[config.environment];
if (!defaultConfig) defaultConfig = CONFIG[ENVIRONMENT.PRODUCTION]`. -/
def selectDefaults (env : Option String) : EnvDefaults :=
  match env with
  | some e => (CONFIG e).getD productionDefaults
  | none => productionDefaults

/-- src/lib/core.js line 74: `Object.assign({}, defaultConfig, config)` —
the caller-supplied field wins whenever present, the default fills the rest. -/
def mergeConfig (d : EnvDefaults) (c : UserConfig) : MergedConfig :=
  { environment := c.environment
    authMethod := c.authMethod
    partnerKey := c.partnerKey
    baseUrl := c.baseUrl.getD d.baseUrl
    publicKey := c.publicKey.getD d.publicKey }

/-- The configuration-resolution step of the constructor
(src/lib/core.js lines 70-74). -/
def resolveConfig (c : UserConfig) : MergedConfig :=
  mergeConfig (selectDefaults c.environment) c

/-- The two construction-time errors (`ERRORS.INVALID_AUTH_METHOD`,
`ERRORS.INVALID_PARTNER_KEY` thrown at src/lib/core.js lines 77 and 81). -/
inductive ConfigError
  | InvalidAuthMethod
  | InvalidPartnerKey
deriving Repr, DecidableEq

/-- src/lib/core.js line 76: `config.authMethod !== AUTH_METHODS.API_KEY &&
config.authMethod !== AUTH_METHODS.USER_TOKEN`. -/
def authMethodInvalid (m : MergedConfig) : Bool :=
  m.authMethod != some API_KEY && m.authMethod != some USER_TOKEN

/-- src/lib/core.js line 80: `!config.partnerKey` — true in JS when the
property is absent/undefined or the empty string. -/
def partnerKeyMissing (m : MergedConfig) : Bool :=
  match m.partnerKey with
  | none => true
  | some s => s == ""

/-- The client object returned by a successful `Celsius(config)` call; it
captures the merged configuration (closed over by every facade method). -/
structure CelsiusClient where
  config : MergedConfig
deriving Repr, DecidableEq

/-- src/lib/core.js lines 69-86: resolve the configuration, validate the
auth method then the partner key, and return the client object.  A thrown
`Error` is embedded as `Except.error`. -/
def Celsius (config : UserConfig) : Except ConfigError CelsiusClient :=
  let merged := resolveConfig config
  if authMethodInvalid merged then .error .InvalidAuthMethod
  else if partnerKeyMissing merged then .error .InvalidPartnerKey
  else .ok { config := merged }

/-- The HTTP verb of a dispatcher call. -/
inductive Method
  | GET
  | POST
deriving Repr, DecidableEq

/-- An encoded payload: the dispatcher's primary POST payload is JSON, the
secondary (file/document) payload is multipart — the two encoding schemes of
the spec, kept distinct by construction. -/
inductive Encoded
  | json (fields : List (String × String))
  | multipart (fields : List (String × String))
deriving Repr, DecidableEq

/-- The outbound request descriptor built by the dispatcher for one call:
verb, interpolated path, serialized query string, optional JSON body,
optional multipart (files) body, and the two designated authentication
headers. -/
structure Request where
  method : Method
  path : String
  queryString : String
  body : Option Encoded
  filesBody : Option Encoded
  partnerHeader : String
  userHeader : String
deriving Repr, DecidableEq

/-- Serialization of query parameters into a query string
(`page=1&perPage=20`). -/
def serializeQuery (params : List (String × String)) : String :=
  String.intercalate "&" (params.map fun p => p.1 ++ "=" ++ p.2)

/-- The partner-credential header value: the merged config's partner key.
Construction guarantees it is a present, non-empty string; `getD ""` is the
total-function embedding of reading it. -/
def partnerHeaderValue (m : MergedConfig) : String :=
  m.partnerKey.getD ""

/-- Modelled from the spec: `HttpClient.get` from `./http-client`, which is
not under src/.  A read request: the payload, if present, is serialized as
query parameters, there is no body, and both authentication headers (the
partner credential from the configuration and the per-call user secret) are
attached. -/
def HttpClient.get (m : MergedConfig) (path : String)
    (queryParams : Option (List (String × String))) (userSecret : String) : Request :=
  { method := .GET
    path := path
    queryString := match queryParams with
      | some ps => serializeQuery ps
      | none => ""
    body := none
    filesBody := none
    partnerHeader := partnerHeaderValue m
    userHeader := userSecret }

/-- Modelled from the spec: `HttpClient.post` from `./http-client`, which is
not under src/.  A write request: the form fields are serialized as a JSON
body, the optional secondary payload (file attachments) is encoded with the
multipart scheme, and both authentication headers are attached. -/
def HttpClient.post (m : MergedConfig) (path : String)
    (formFields : List (String × String)) (files : Option (List (String × String)))
    (userSecret : String) : Request :=
  { method := .POST
    path := path
    queryString := ""
    body := some (.json formFields)
    filesBody := files.map .multipart
    partnerHeader := partnerHeaderValue m
    userHeader := userSecret }

namespace PATHS

/-- Modelled from the spec: `PATHS.KYC` from `./consts` (facade table row
for getKycStatus / verifyKyc). -/
def KYC : String := "/kyc"

/-- Modelled from the spec: `PATHS.BALANCE_SUMMARY` from `./consts`. -/
def BALANCE_SUMMARY : String := "/balance"

/-- Modelled from the spec: `PATHS.COIN_BALANCE` from `./consts` — the path
template with the coin symbol interpolated. -/
def COIN_BALANCE (coin : String) : String := "/balance/" ++ coin

/-- Modelled from the spec: `PATHS.TRANSACTIONS_SUMMARY` from `./consts`. -/
def TRANSACTIONS_SUMMARY : String := "/transactions"

/-- Modelled from the spec: `PATHS.COIN_TRANSACTIONS` from `./consts`. -/
def COIN_TRANSACTIONS (coin : String) : String := "/transactions/" ++ coin

/-- Modelled from the spec: `PATHS.DEPOSIT` from `./consts`. -/
def DEPOSIT (coin : String) : String := "/deposit/" ++ coin

/-- Modelled from the spec: `PATHS.WITHDRAW` from `./consts`. -/
def WITHDRAW (coin : String) : String := "/withdraw/" ++ coin

/-- Modelled from the spec: `PATHS.TRANSACTION_STATUS` from `./consts` — the
path template with the transaction id interpolated. -/
def TRANSACTION_STATUS (transaction : String) : String :=
  "/transactions/status/" ++ transaction

end PATHS

/-- The pagination descriptor passed by callers of the transaction
operations (`{page, perPage}`). -/
structure Pagination where
  page : Nat
  perPage : Nat
deriving Repr, DecidableEq

/-- Modelled from the spec: the dispatcher serializes a pagination object as
the query parameters `page` and `perPage`. -/
def paginationParams (p : Pagination) : List (String × String) :=
  [("page", toString p.page), ("perPage", toString p.perPage)]

/-- src/lib/core.js lines 100-102: `httpClient.get(PATHS.KYC, null, userSecret)`. -/
def CelsiusClient.getKycStatus (c : CelsiusClient) (userSecret : String) : Request :=
  HttpClient.get c.config PATHS.KYC none userSecret

/-- src/lib/core.js lines 116-118:
`httpClient.post(PATHS.KYC, userData, documents, userSecret)`. -/
def CelsiusClient.verifyKyc (c : CelsiusClient)
    (userData documents : List (String × String)) (userSecret : String) : Request :=
  HttpClient.post c.config PATHS.KYC userData (some documents) userSecret

/-- src/lib/core.js lines 128-130:
`httpClient.get(PATHS.BALANCE_SUMMARY, null, userSecret)`. -/
def CelsiusClient.getBalanceSummary (c : CelsiusClient) (userSecret : String) : Request :=
  HttpClient.get c.config PATHS.BALANCE_SUMMARY none userSecret

/-- src/lib/core.js lines 143-145:
`httpClient.get(PATHS.COIN_BALANCE(coin), null, userSecret)`. -/
def CelsiusClient.getCoinBalance (c : CelsiusClient) (coin userSecret : String) : Request :=
  HttpClient.get c.config (PATHS.COIN_BALANCE coin) none userSecret

/-- src/lib/core.js lines 159-161:
`httpClient.get(PATHS.TRANSACTIONS_SUMMARY, pagination, userSecret)`. -/
def CelsiusClient.getTransactionSummary (c : CelsiusClient)
    (pagination : Pagination) (userSecret : String) : Request :=
  HttpClient.get c.config PATHS.TRANSACTIONS_SUMMARY (some (paginationParams pagination)) userSecret

/-- src/lib/core.js lines 176-178:
`httpClient.get(PATHS.COIN_TRANSACTIONS(coin), pagination, userSecret)`. -/
def CelsiusClient.getCoinTransactions (c : CelsiusClient) (coin : String)
    (pagination : Pagination) (userSecret : String) : Request :=
  HttpClient.get c.config (PATHS.COIN_TRANSACTIONS coin) (some (paginationParams pagination)) userSecret

/-- src/lib/core.js lines 191-193:
`httpClient.get(PATHS.DEPOSIT(coin), null, userSecret)`. -/
def CelsiusClient.getDeposit (c : CelsiusClient) (coin userSecret : String) : Request :=
  HttpClient.get c.config (PATHS.DEPOSIT coin) none userSecret

/-- src/lib/core.js lines 207-209:
`httpClient.post(PATHS.WITHDRAW(coin), formFields, null, userSecret)`. -/
def CelsiusClient.withdraw (c : CelsiusClient) (coin : String)
    (formFields : List (String × String)) (userSecret : String) : Request :=
  HttpClient.post c.config (PATHS.WITHDRAW coin) formFields none userSecret

/-- src/lib/core.js lines 222-224:
`httpClient.get(PATHS.TRANSACTION_STATUS(transaction), null, userSecret)`. -/
def CelsiusClient.getTransactionStatus (c : CelsiusClient)
    (transaction userSecret : String) : Request :=
  HttpClient.get c.config (PATHS.TRANSACTION_STATUS transaction) none userSecret

/-- The signed response envelope: body plus the out-of-band signature value. -/
structure Envelope where
  body : String
  signature : String
deriving Repr, DecidableEq

/-- The outcome of the transport layer for one outbound request: either a
transport-level failure (connection refused, timeout) or a response with a
status code and a signed envelope. -/
inductive TransportResult
  | networkFailure
  | response (statusCode : Nat) (envelope : Envelope)
deriving Repr, DecidableEq

/-- The typed failures an operation can resolve to. -/
inductive SdkError
  | NetworkError
  | RemoteError (statusCode : Nat) (body : String)
  | SignatureVerificationFailed
deriving Repr, DecidableEq

/-- Modelled from the spec: the response side of `./http-client`, which is
not under src/.  The spec leaves the signature algorithm open, so
verification is an arbitrary boolean predicate over the envelope and the
trust-anchor public key.  On a received response the signature is verified
first — unconditionally, before any caller-visible value is produced — then
a success status yields the body and a non-success status yields a
`RemoteError`; a transport failure yields `NetworkError` with no envelope to
verify.  The second component counts how many times `verify` was invoked. -/
def dispatchCounted (verify : Envelope → String → Bool) (publicKey : String)
    (t : TransportResult) : Except SdkError String × Nat :=
  match t with
  | .networkFailure => (.error .NetworkError, 0)
  | .response status env =>
    if verify env publicKey then
      if 200 ≤ status ∧ status < 300 then (.ok env.body, 1)
      else (.error (.RemoteError status env.body), 1)
    else (.error .SignatureVerificationFailed, 1)

/-- The caller-visible result of dispatching one transport outcome. -/
def dispatch (verify : Envelope → String → Bool) (publicKey : String)
    (t : TransportResult) : Except SdkError String :=
  (dispatchCounted verify publicKey t).1

/-- One call to one of the nine facade operations, with its arguments — used
to quantify over every operation of the public surface. -/
inductive OpCall
  | getKycStatus (userSecret : String)
  | verifyKyc (userData documents : List (String × String)) (userSecret : String)
  | getBalanceSummary (userSecret : String)
  | getCoinBalance (coin userSecret : String)
  | getTransactionSummary (pagination : Pagination) (userSecret : String)
  | getCoinTransactions (coin : String) (pagination : Pagination) (userSecret : String)
  | getDeposit (coin userSecret : String)
  | withdraw (coin : String) (formFields : List (String × String)) (userSecret : String)
  | getTransactionStatus (transaction userSecret : String)
deriving Repr, DecidableEq

/-- The request a given facade operation hands to the dispatcher. -/
def requestOf (c : CelsiusClient) : OpCall → Request
  | .getKycStatus s => c.getKycStatus s
  | .verifyKyc u d s => c.verifyKyc u d s
  | .getBalanceSummary s => c.getBalanceSummary s
  | .getCoinBalance coin s => c.getCoinBalance coin s
  | .getTransactionSummary p s => c.getTransactionSummary p s
  | .getCoinTransactions coin p s => c.getCoinTransactions coin p s
  | .getDeposit coin s => c.getDeposit coin s
  | .withdraw coin f s => c.withdraw coin f s
  | .getTransactionStatus t s => c.getTransactionStatus t s

/-- The per-call user secret an operation was invoked with. -/
def userSecretOf : OpCall → String
  | .getKycStatus s => s
  | .verifyKyc _ _ s => s
  | .getBalanceSummary s => s
  | .getCoinBalance _ s => s
  | .getTransactionSummary _ s => s
  | .getCoinTransactions _ _ s => s
  | .getDeposit _ s => s
  | .withdraw _ _ s => s
  | .getTransactionStatus _ s => s

/-- The end-to-end run of one facade operation: build the request, hand it to
the transport once, and dispatch the transport's outcome through the
signed-response pipeline; its value is returned to the caller unchanged. -/
def runOp (c : CelsiusClient) (verify : Envelope → String → Bool)
    (transport : Request → TransportResult) (op : OpCall) : Except SdkError String :=
  dispatch verify c.config.publicKey (transport (requestOf c op))

/-- The explicit-state-passing embedding of calling a facade method on the
client object: each method of src/lib/core.js lines 86-225 reads the captured
`config` and `httpClient` but assigns to neither, so a call yields the built
request and leaves the client's state as it was. -/
def execOp (c : CelsiusClient) (op : OpCall) : CelsiusClient × Request :=
  (c, requestOf c op)

lemma authMethodInvalid_iff (m : MergedConfig) :
    authMethodInvalid m = true ↔
      (m.authMethod ≠ some API_KEY ∧ m.authMethod ≠ some USER_TOKEN) := by
  simp [authMethodInvalid]

lemma partnerKeyMissing_iff (m : MergedConfig) :
    partnerKeyMissing m = true ↔
      (m.partnerKey = none ∨ m.partnerKey = some "") := by
  cases h : m.partnerKey with
  | none => simp [partnerKeyMissing, h]
  | some s => simp [partnerKeyMissing, h]

/-- Claim C2: constructing the client fails with a ConfigurationError if and
only if the merged configuration's authMethod is not one of API_KEY or
USER_TOKEN (error InvalidAuthMethod) or its partner key is empty or absent
(error InvalidPartnerKey); when neither condition holds, construction
succeeds and returns the client object. -/
theorem celsius_construction_fails_iff (cfg : UserConfig) :
    ((∃ e, Celsius cfg = .error e) ↔
      (((resolveConfig cfg).authMethod ≠ some API_KEY ∧
          (resolveConfig cfg).authMethod ≠ some USER_TOKEN) ∨
        ((resolveConfig cfg).partnerKey = none ∨
          (resolveConfig cfg).partnerKey = some ""))) ∧
    (((resolveConfig cfg).authMethod ≠ some API_KEY ∧
        (resolveConfig cfg).authMethod ≠ some USER_TOKEN) →
      Celsius cfg = .error ConfigError.InvalidAuthMethod) ∧
    (((resolveConfig cfg).authMethod = some API_KEY ∨
        (resolveConfig cfg).authMethod = some USER_TOKEN) →
      ((resolveConfig cfg).partnerKey = none ∨
        (resolveConfig cfg).partnerKey = some "") →
      Celsius cfg = .error ConfigError.InvalidPartnerKey) ∧
    (((resolveConfig cfg).authMethod = some API_KEY ∨
        (resolveConfig cfg).authMethod = some USER_TOKEN) →
      (∀ s, (resolveConfig cfg).partnerKey = some s → s ≠ "") →
      (resolveConfig cfg).partnerKey ≠ none →
      Celsius cfg = .ok { config := resolveConfig cfg }) := by
  have hauth := authMethodInvalid_iff (resolveConfig cfg)
  have hkey := partnerKeyMissing_iff (resolveConfig cfg)
  unfold Celsius
  by_cases ha : authMethodInvalid (resolveConfig cfg) = true
  · have hc := hauth.mp ha
    refine ⟨⟨fun _ => Or.inl hc, fun _ => ⟨ConfigError.InvalidAuthMethod, by simp [ha]⟩⟩,
      fun _ => by simp [ha], fun hvalid _ => ?_, fun hvalid _ _ => ?_⟩
    · rcases hvalid with h | h <;> [exact absurd h hc.1; exact absurd h hc.2]
    · rcases hvalid with h | h <;> [exact absurd h hc.1; exact absurd h hc.2]
  · have ha' : authMethodInvalid (resolveConfig cfg) = false := by
      simpa using ha
    have hvalid : (resolveConfig cfg).authMethod = some API_KEY ∨
        (resolveConfig cfg).authMethod = some USER_TOKEN := by
      by_contra hcon
      push_neg at hcon
      exact ha (hauth.mpr hcon)
    by_cases hk : partnerKeyMissing (resolveConfig cfg) = true
    · have hkc := hkey.mp hk
      refine ⟨⟨fun _ => Or.inr hkc, fun _ => ⟨ConfigError.InvalidPartnerKey, by simp [ha', hk]⟩⟩,
        fun hinv => ?_, fun _ _ => by simp [ha', hk], fun _ hne hnn => ?_⟩
      · rcases hvalid with h | h <;> [exact absurd h hinv.1; exact absurd h hinv.2]
      · rcases hkc with h | h
        · exact absurd h hnn
        · exact absurd rfl (hne "" h)
    · have hk' : partnerKeyMissing (resolveConfig cfg) = false := by
        simpa using hk
      have hkc : ¬((resolveConfig cfg).partnerKey = none ∨
          (resolveConfig cfg).partnerKey = some "") := fun h => hk (hkey.mpr h)
      refine ⟨⟨fun ⟨e, he⟩ => ?_, fun h => ?_⟩,
        fun hinv => ?_, fun _ hmiss => absurd hmiss hkc, fun _ _ _ => by simp [ha', hk']⟩
      · rw [if_neg (by simp [ha']), if_neg (by simp [hk'])] at he
        exact absurd he (by simp)
      · rcases h with h | h
        · rcases hvalid with h' | h' <;> [exact absurd h' h.1; exact absurd h' h.2]
        · exact absurd h hkc
      · rcases hvalid with h | h <;> [exact absurd h hinv.1; exact absurd h hinv.2]

/-- Closed instances of claim C2: a config with a recognized auth method and
a non-empty partner key constructs successfully, and one with an invalid
auth method fails with InvalidAuthMethod. -/
theorem celsius_construction_fails_iff_witness :
    Celsius { authMethod := some USER_TOKEN, partnerKey := some "pk" } =
      .ok { config := resolveConfig { authMethod := some USER_TOKEN, partnerKey := some "pk" } } ∧
    Celsius { partnerKey := some "pk" } = .error ConfigError.InvalidAuthMethod := by
  constructor
  · exact (celsius_construction_fails_iff _).2.2.2 (Or.inr rfl)
      (fun s hs => by
        simp only [resolveConfig, mergeConfig] at hs
        injection hs with hs
        subst hs
        decide)
      (by simp [resolveConfig, mergeConfig])
  · exact (celsius_construction_fails_iff _).2.1 ⟨by simp [resolveConfig, mergeConfig], by simp [resolveConfig, mergeConfig]⟩

/-- Claim C3: configuration resolution selects the defaults table for
config.environment, falls back to the production defaults table when the
environment value is unrecognized (or absent), and then overrides defaults
with every field the caller explicitly supplied, so caller-supplied values
always win over defaults in the resolved Configuration. -/
theorem resolveConfig_defaults_and_overrides (cfg : UserConfig) :
    (∀ e d, cfg.environment = some e → CONFIG e = some d →
      (cfg.baseUrl = none → (resolveConfig cfg).baseUrl = d.baseUrl) ∧
      (cfg.publicKey = none → (resolveConfig cfg).publicKey = d.publicKey)) ∧
    (∀ e, cfg.environment = some e → CONFIG e = none →
      (cfg.baseUrl = none → (resolveConfig cfg).baseUrl = productionDefaults.baseUrl) ∧
      (cfg.publicKey = none → (resolveConfig cfg).publicKey = productionDefaults.publicKey)) ∧
    (cfg.environment = none →
      (cfg.baseUrl = none → (resolveConfig cfg).baseUrl = productionDefaults.baseUrl) ∧
      (cfg.publicKey = none → (resolveConfig cfg).publicKey = productionDefaults.publicKey)) ∧
    (∀ b, cfg.baseUrl = some b → (resolveConfig cfg).baseUrl = b) ∧
    (∀ k, cfg.publicKey = some k → (resolveConfig cfg).publicKey = k) ∧
    ((resolveConfig cfg).authMethod = cfg.authMethod) ∧
    ((resolveConfig cfg).partnerKey = cfg.partnerKey) ∧
    ((resolveConfig cfg).environment = cfg.environment) := by
  refine ⟨?_, ?_, ?_, ?_, ?_, rfl, rfl, rfl⟩
  · intro e d he hd
    constructor <;> intro h <;>
      simp [resolveConfig, mergeConfig, selectDefaults, he, hd, h]
  · intro e he hd
    constructor <;> intro h <;>
      simp [resolveConfig, mergeConfig, selectDefaults, he, hd, h]
  · intro he
    constructor <;> intro h <;>
      simp [resolveConfig, mergeConfig, selectDefaults, he, h]
  · intro b hb
    simp [resolveConfig, mergeConfig, hb]
  · intro k hk
    simp [resolveConfig, mergeConfig, hk]

/-- Closed instances of claim C3: with environment staging and no
caller-supplied baseUrl the staging default is used; with an unrecognized
environment the production default is used; a caller-supplied baseUrl wins
over the default. -/
theorem resolveConfig_defaults_and_overrides_witness :
    (resolveConfig { environment := some STAGING }).baseUrl = stagingDefaults.baseUrl ∧
    (resolveConfig { environment := some "mars" }).baseUrl = productionDefaults.baseUrl ∧
    (resolveConfig { environment := some STAGING, baseUrl := some "http://u" }).baseUrl = "http://u" := by
  refine ⟨?_, ?_, ?_⟩
  · exact (((resolveConfig_defaults_and_overrides _).1 STAGING stagingDefaults rfl (by decide)).1 rfl)
  · exact (((resolveConfig_defaults_and_overrides _).2.1 "mars" rfl (by decide)).1 rfl)
  · exact ((resolveConfig_defaults_and_overrides _).2.2.2.1 "http://u" rfl)

/-- Claim C10: the auth-method check precedes the partner-key check — for
every config whose merged authMethod is invalid and whose partner key is
also empty or absent, construction fails with InvalidAuthMethod, never
InvalidPartnerKey; and both checks are applied to the merged configuration
(construction factors through configuration resolution), not to the raw
caller input. -/
theorem construction_check_order (cfg : UserConfig) :
    (((resolveConfig cfg).authMethod ≠ some API_KEY ∧
        (resolveConfig cfg).authMethod ≠ some USER_TOKEN) →
      ((resolveConfig cfg).partnerKey = none ∨ (resolveConfig cfg).partnerKey = some "") →
      Celsius cfg = .error ConfigError.InvalidAuthMethod) ∧
    (∀ cfg2, resolveConfig cfg = resolveConfig cfg2 → Celsius cfg = Celsius cfg2) := by
  constructor
  · intro ha _
    have h : authMethodInvalid (resolveConfig cfg) = true := (authMethodInvalid_iff _).mpr ha
    simp [Celsius, h]
  · intro cfg2 h
    unfold Celsius
    rw [h]

/-- Closed instance of claim C10: the empty config has both an invalid auth
method and a missing partner key, and construction reports
InvalidAuthMethod. -/
theorem construction_check_order_witness :
    Celsius {} = .error ConfigError.InvalidAuthMethod :=
  (construction_check_order {}).1 ⟨by decide, by decide⟩ (Or.inl (by decide))

/-- Claim C9: the resolved Configuration is constructed exactly once at
client initialization (a successfully constructed client carries exactly the
resolved configuration) and is immutable afterward: no facade operation
changes the client's state, and any sequence of facade calls leaves the
client — hence its Configuration — unchanged. -/
theorem config_constructed_once_immutable (cfg : UserConfig) (c : CelsiusClient)
    (h : Celsius cfg = .ok c) :
    c.config = resolveConfig cfg ∧
    (∀ op : OpCall, (execOp c op).1 = c) ∧
    (∀ ops : List OpCall, ops.foldl (fun st op => (execOp st op).1) c = c) := by
  refine ⟨?_, fun _ => rfl, ?_⟩
  · have h' : (if authMethodInvalid (resolveConfig cfg) then
          (Except.error ConfigError.InvalidAuthMethod : Except ConfigError CelsiusClient)
        else if partnerKeyMissing (resolveConfig cfg) then .error .InvalidPartnerKey
        else .ok { config := resolveConfig cfg }) = .ok c := h
    split at h'
    · exact absurd h' (by simp)
    · split at h'
      · exact absurd h' (by simp)
      · cases h'
        rfl
  · intro ops
    induction ops with
    | nil => rfl
    | cons op ops ih => exact ih

/-- Closed instance of claim C9: a concretely constructed client carries the
resolved configuration of its input config. -/
theorem config_constructed_once_immutable_witness :
    CelsiusClient.config ⟨resolveConfig { authMethod := some USER_TOKEN, partnerKey := some "pk" }⟩ =
      resolveConfig { authMethod := some USER_TOKEN, partnerKey := some "pk" } :=
  (config_constructed_once_immutable
    { authMethod := some USER_TOKEN, partnerKey := some "pk" } _ rfl).1

/-- Claim C1: for every operation and every transport outcome that carries a
response, the signature verification step runs (exactly once per response)
before any caller-visible value is produced: a response whose signature does
not verify is never returned as a success value, and a success value can
only arise from a response that verified. -/
theorem verify_once_before_value (c : CelsiusClient) (verify : Envelope → String → Bool)
    (transport : Request → TransportResult) (op : OpCall) (status : Nat) (env : Envelope)
    (h : transport (requestOf c op) = .response status env) :
    (dispatchCounted verify c.config.publicKey (transport (requestOf c op))).2 = 1 ∧
    runOp c verify transport op =
      (dispatchCounted verify c.config.publicKey (transport (requestOf c op))).1 ∧
    (verify env c.config.publicKey = false →
      runOp c verify transport op = .error SdkError.SignatureVerificationFailed) ∧
    (∀ b, runOp c verify transport op = .ok b →
      verify env c.config.publicKey = true ∧ b = env.body) := by
  have hd : dispatchCounted verify c.config.publicKey (.response status env) =
      if verify env c.config.publicKey then
        if 200 ≤ status ∧ status < 300 then (.ok env.body, 1)
        else (.error (.RemoteError status env.body), 1)
      else (.error .SignatureVerificationFailed, 1) := rfl
  unfold runOp dispatch
  rw [h, hd]
  refine ⟨?_, rfl, ?_, ?_⟩
  · split
    · split <;> rfl
    · rfl
  · intro hv
    simp [hv]
  · intro b hb
    by_cases hv : verify env c.config.publicKey = true
    · refine ⟨hv, ?_⟩
      rw [if_pos hv] at hb
      by_cases hs : 200 ≤ status ∧ status < 300
      · rw [if_pos hs] at hb
        simp at hb
        exact hb.symm
      · rw [if_neg hs] at hb
        exact absurd hb (by simp)
    · simp only [Bool.not_eq_true] at hv
      rw [if_neg (by simp [hv])] at hb
      exact absurd hb (by simp)

/-- Closed instance of claim C1: with a verifier that rejects everything, a
concrete getKycStatus call resolves to SignatureVerificationFailed, never to
the (unverified) body. -/
theorem verify_once_before_value_witness :
    runOp ⟨resolveConfig { authMethod := some USER_TOKEN, partnerKey := some "pk" }⟩
        (fun _ _ => false) (fun _ => .response 200 ⟨"body", "sig"⟩)
        (.getKycStatus "user") =
      .error SdkError.SignatureVerificationFailed :=
  (verify_once_before_value _ (fun _ _ => false) (fun _ => .response 200 ⟨"body", "sig"⟩)
    (.getKycStatus "user") 200 ⟨"body", "sig"⟩ rfl).2.2.1 rfl

/-- Claim C4: each of the nine facade operations performs exactly one
dispatcher call, with the verb, path template (coin symbol or transaction id
interpolated) and payload of the spec's table, and returns that dispatcher
call's result unchanged. -/
theorem facade_table (c : CelsiusClient) :
    (∀ s, requestOf c (.getKycStatus s) =
      { method := .GET, path := "/kyc", queryString := "", body := none,
        filesBody := none, partnerHeader := partnerHeaderValue c.config, userHeader := s }) ∧
    (∀ u d s, requestOf c (.verifyKyc u d s) =
      { method := .POST, path := "/kyc", queryString := "", body := some (.json u),
        filesBody := some (.multipart d), partnerHeader := partnerHeaderValue c.config,
        userHeader := s }) ∧
    (∀ s, requestOf c (.getBalanceSummary s) =
      { method := .GET, path := "/balance", queryString := "", body := none,
        filesBody := none, partnerHeader := partnerHeaderValue c.config, userHeader := s }) ∧
    (∀ coin s, requestOf c (.getCoinBalance coin s) =
      { method := .GET, path := "/balance/" ++ coin, queryString := "", body := none,
        filesBody := none, partnerHeader := partnerHeaderValue c.config, userHeader := s }) ∧
    (∀ p s, requestOf c (.getTransactionSummary p s) =
      { method := .GET, path := "/transactions",
        queryString := serializeQuery (paginationParams p), body := none,
        filesBody := none, partnerHeader := partnerHeaderValue c.config, userHeader := s }) ∧
    (∀ coin p s, requestOf c (.getCoinTransactions coin p s) =
      { method := .GET, path := "/transactions/" ++ coin,
        queryString := serializeQuery (paginationParams p), body := none,
        filesBody := none, partnerHeader := partnerHeaderValue c.config, userHeader := s }) ∧
    (∀ coin s, requestOf c (.getDeposit coin s) =
      { method := .GET, path := "/deposit/" ++ coin, queryString := "", body := none,
        filesBody := none, partnerHeader := partnerHeaderValue c.config, userHeader := s }) ∧
    (∀ coin f s, requestOf c (.withdraw coin f s) =
      { method := .POST, path := "/withdraw/" ++ coin, queryString := "",
        body := some (.json f), filesBody := none,
        partnerHeader := partnerHeaderValue c.config, userHeader := s }) ∧
    (∀ t s, requestOf c (.getTransactionStatus t s) =
      { method := .GET, path := "/transactions/status/" ++ t, queryString := "",
        body := none, filesBody := none, partnerHeader := partnerHeaderValue c.config,
        userHeader := s }) ∧
    (∀ verify transport op, runOp c verify transport op =
      dispatch verify c.config.publicKey (transport (requestOf c op))) :=
  ⟨fun _ => rfl, fun _ _ _ => rfl, fun _ => rfl, fun _ _ => rfl, fun _ _ => rfl,
    fun _ _ _ => rfl, fun _ _ => rfl, fun _ _ _ => rfl, fun _ _ => rfl,
    fun _ _ _ => rfl⟩

/-- Claim C5: getCoinTransactions with coin BTC, pagination page 1 and
perPage 20, and a token issues a single GET request to /transactions/BTC
with the pagination serialized as the query string page=1&perPage=20, no
body, and the token carried in the user-credential header. -/
theorem getCoinTransactions_btc_request (c : CelsiusClient) (token : String) :
    c.getCoinTransactions "BTC" { page := 1, perPage := 20 } token =
      { method := .GET, path := "/transactions/BTC",
        queryString := "page=1&perPage=20", body := none, filesBody := none,
        partnerHeader := partnerHeaderValue c.config, userHeader := token } := by
  simp only [CelsiusClient.getCoinTransactions, HttpClient.get, PATHS.COIN_TRANSACTIONS,
    paginationParams, serializeQuery]
  rfl

/-- Claim C6: withdraw with coin BTC sends a single POST to /withdraw/BTC
with the form fields as the JSON body and no secondary multipart payload; on
a verified success response the operation resolves to the response body (the
transaction id string), and on a verified 400-class response it resolves to
a RemoteError carrying that status code and body. -/
theorem withdraw_btc_request_and_result (c : CelsiusClient)
    (address amount token : String) :
    (c.withdraw "BTC" [("address", address), ("amount", amount)] token =
      { method := .POST, path := "/withdraw/BTC", queryString := "",
        body := some (.json [("address", address), ("amount", amount)]),
        filesBody := none, partnerHeader := partnerHeaderValue c.config,
        userHeader := token }) ∧
    (∀ (verify : Envelope → String → Bool) (transport : Request → TransportResult)
        (status : Nat) (env : Envelope),
      transport (requestOf c
          (.withdraw "BTC" [("address", address), ("amount", amount)] token)) =
        .response status env →
      verify env c.config.publicKey = true →
      ((200 ≤ status ∧ status < 300) →
        runOp c verify transport
            (.withdraw "BTC" [("address", address), ("amount", amount)] token) =
          .ok env.body) ∧
      ((400 ≤ status ∧ status < 500) →
        runOp c verify transport
            (.withdraw "BTC" [("address", address), ("amount", amount)] token) =
          .error (.RemoteError status env.body))) := by
  refine ⟨rfl, ?_⟩
  intro verify transport status env ht hv
  have hd : dispatchCounted verify c.config.publicKey (.response status env) =
      if verify env c.config.publicKey then
        if 200 ≤ status ∧ status < 300 then (.ok env.body, 1)
        else (.error (.RemoteError status env.body), 1)
      else (.error .SignatureVerificationFailed, 1) := rfl
  constructor
  · intro hs
    unfold runOp dispatch
    rw [ht, hd, if_pos hv, if_pos hs]
  · intro hs
    unfold runOp dispatch
    rw [ht, hd, if_pos hv, if_neg (by omega)]

/-- Closed instance of claim C6: with an always-accepting verifier and a
transport returning status 400 with body err, a concrete withdraw call
resolves to RemoteError 400 err. -/
theorem withdraw_btc_request_and_result_witness :
    runOp ⟨resolveConfig { authMethod := some USER_TOKEN, partnerKey := some "pk" }⟩
        (fun _ _ => true) (fun _ => .response 400 ⟨"err", "sig"⟩)
        (.withdraw "BTC" [("address", "1A2b"), ("amount", "0.5")] "user") =
      .error (.RemoteError 400 "err") :=
  ((withdraw_btc_request_and_result _ "1A2b" "0.5" "user").2
    (fun _ _ => true) (fun _ => .response 400 ⟨"err", "sig"⟩) 400 ⟨"err", "sig"⟩
    rfl rfl).2 (by omega)

/-- Claim C7: verifyKyc issues exactly one POST request to /kyc in which the
documents are encoded with the multipart scheme, distinct from the JSON
encoding used for the primary userData payload. -/
theorem verifyKyc_multipart_post (c : CelsiusClient)
    (userData documents : List (String × String)) (userSecret : String) :
    (c.verifyKyc userData documents userSecret).method = .POST ∧
    (c.verifyKyc userData documents userSecret).path = "/kyc" ∧
    (c.verifyKyc userData documents userSecret).body = some (.json userData) ∧
    (c.verifyKyc userData documents userSecret).filesBody = some (.multipart documents) ∧
    Encoded.multipart documents ≠ Encoded.json userData :=
  ⟨rfl, rfl, rfl, rfl, fun h => Encoded.noConfusion h⟩

/-- Closed instance of claim C7: a concrete verifyKyc call carries the
documents in the multipart slot, and that encoding differs from the JSON
encoding of the userData payload. -/
theorem verifyKyc_multipart_post_witness :
    (CelsiusClient.verifyKyc
        ⟨resolveConfig { authMethod := some USER_TOKEN, partnerKey := some "pk" }⟩
        [("first_name", "Satoshi")] [("document_front_image", "img")] "user").filesBody =
      some (.multipart [("document_front_image", "img")]) ∧
    Encoded.multipart [("document_front_image", "img")] ≠
      Encoded.json [("first_name", "Satoshi")] :=
  ⟨(verifyKyc_multipart_post _ [("first_name", "Satoshi")]
      [("document_front_image", "img")] "user").2.2.2.1,
    (verifyKyc_multipart_post
        (⟨resolveConfig { authMethod := some USER_TOKEN, partnerKey := some "pk" }⟩ : CelsiusClient)
        [("first_name", "Satoshi")] [("document_front_image", "img")] "user").2.2.2.2⟩

/-- Claim C8: for every one of the nine operations and every call to it, the
outbound request carries both authentication headers: the partner credential
fixed in the client's configuration and the per-call caller-supplied user
secret. -/
theorem both_auth_headers (c : CelsiusClient) (op : OpCall) :
    (requestOf c op).partnerHeader = partnerHeaderValue c.config ∧
    (requestOf c op).userHeader = userSecretOf op := by
  cases op <;> exact ⟨rfl, rfl⟩

end CelsiusSDK
